/-
Verification of the NLRAD dashboard tool-execution core.

A shallow embedding of the repository's Python code:
  - backend/lib/errors.py, backend/lib/result.py
  - backend/core/base_tool.py, backend/core/registry.py, backend/core/executor.py
  - backend/models/ingestor_timeline.py, backend/models/ingestor_force.py
  - backend/tools/RAD/ingestor/timeline_tool.py, force_load_tool.py
  - config/settings.py (RAD_TIMELINE_DESKS)

Modelling conventions:
  - Python exceptions become `Except` / explicit outcome types.
  - Ambient nondeterminism (uuid4 request ids, utcnow timestamps, the
    `random` module) becomes explicit parameters threaded into the
    functions that consume it.
  - Logging calls are side effects with no bearing on any claim and are
    dropped.
  - `datetime.fromisoformat` / `timedelta` arithmetic / `strftime` are
    stdlib collaborators, embedded below following the CPython 3.10
    C implementation for ISO strings — its grammar with its documented
    leniences, the constructor range checks (`MINYEAR = 1`), and the
    timezone-offset bound; accepted offsets are then discarded, as no
    claim depends on aware-datetime arithmetic.
-/
import Mathlib

set_option autoImplicit false

namespace NLRAD

/-! ## Calendar / datetime model (stdlib collaborator of the tools) -/

/-- Mirror of Python `datetime.date`. -/
structure PyDate where
  year : Nat
  month : Nat
  day : Nat
deriving DecidableEq, Repr

/-- Mirror of Python `datetime.datetime` (naive; microsecond kept for
`isoformat` fidelity, timezone offsets are not stored). -/
structure PyDateTime where
  year : Nat
  month : Nat
  day : Nat
  hour : Nat
  minute : Nat
  second : Nat
  microsecond : Nat
deriving DecidableEq, Repr

def PyDateTime.date (dt : PyDateTime) : PyDate :=
  ⟨dt.year, dt.month, dt.day⟩

def isLeapYear (y : Nat) : Bool :=
  y % 4 = 0 && (y % 100 ≠ 0 || y % 400 = 0)

def daysInMonth (y m : Nat) : Nat :=
  if m = 2 then (if isLeapYear y then 29 else 28)
  else if m = 4 ∨ m = 6 ∨ m = 9 ∨ m = 11 then 30
  else 31

/-- Successor day in the proleptic Gregorian calendar. -/
def nextDay : Nat × Nat × Nat → Nat × Nat × Nat
  | (y, m, d) =>
    if d < daysInMonth y m then (y, m, d + 1)
    else if m < 12 then (y, m + 1, 1)
    else (y + 1, 1, 1)

/-- Predecessor day in the proleptic Gregorian calendar. -/
def prevDay : Nat × Nat × Nat → Nat × Nat × Nat
  | (y, m, d) =>
    if d > 1 then (y, m, d - 1)
    else if m > 1 then (y, m - 1, daysInMonth y (m - 1))
    else (y - 1, 12, daysInMonth (y - 1) 12)

def addDaysN : Nat → Nat × Nat × Nat → Nat × Nat × Nat
  | 0, ymd => ymd
  | n + 1, ymd => addDaysN n (nextDay ymd)

def subDaysN : Nat → Nat × Nat × Nat → Nat × Nat × Nat
  | 0, ymd => ymd
  | n + 1, ymd => subDaysN n (prevDay ymd)

/-- `dt + timedelta(hours=h)` for a naive datetime. -/
def PyDateTime.addHours (dt : PyDateTime) (h : Nat) : PyDateTime :=
  let total := dt.hour + h
  let (y, m, d) := addDaysN (total / 24) (dt.year, dt.month, dt.day)
  ⟨y, m, d, total % 24, dt.minute, dt.second, dt.microsecond⟩

/-- `dt - timedelta(days=n)` for a naive datetime. -/
def PyDateTime.subDays (dt : PyDateTime) (n : Nat) : PyDateTime :=
  let (y, m, d) := subDaysN n (dt.year, dt.month, dt.day)
  ⟨y, m, d, dt.hour, dt.minute, dt.second, dt.microsecond⟩

def pad2 (n : Nat) : String :=
  if n < 10 then "0" ++ toString n else toString n

def pad4 (n : Nat) : String :=
  if n < 10 then "000" ++ toString n
  else if n < 100 then "00" ++ toString n
  else if n < 1000 then "0" ++ toString n
  else toString n

def pad6 (n : Nat) : String :=
  let s := toString n
  let k := 6 - s.length
  String.mk (List.replicate k '0') ++ s

/-- Python `date.isoformat()` / `strftime("%Y-%m-%d")`. -/
def PyDate.isoformat (d : PyDate) : String :=
  pad4 d.year ++ "-" ++ pad2 d.month ++ "-" ++ pad2 d.day

/-- Python `datetime.isoformat()`: omits microseconds when they are 0. -/
def PyDateTime.isoformat (dt : PyDateTime) : String :=
  pad4 dt.year ++ "-" ++ pad2 dt.month ++ "-" ++ pad2 dt.day ++ "T" ++
    pad2 dt.hour ++ ":" ++ pad2 dt.minute ++ ":" ++ pad2 dt.second ++
    (if dt.microsecond = 0 then "" else "." ++ pad6 dt.microsecond)

/-- Python `datetime.strftime("%Y-%m-%d %H:%M:%S")`. -/
def PyDateTime.strftimeDateTime (dt : PyDateTime) : String :=
  pad4 dt.year ++ "-" ++ pad2 dt.month ++ "-" ++ pad2 dt.day ++ " " ++
    pad2 dt.hour ++ ":" ++ pad2 dt.minute ++ ":" ++ pad2 dt.second

/-- Python `datetime.strftime("%Y-%m-%d")`. -/
def PyDateTime.strftimeDate (dt : PyDateTime) : String :=
  pad4 dt.year ++ "-" ++ pad2 dt.month ++ "-" ++ pad2 dt.day

/-! ### `datetime.fromisoformat` (CPython 3.10 grammar) -/

def digitVal (c : Char) : Option Nat :=
  if c.isDigit then some (c.toNat - 48) else none

/-- Read exactly two digits from the front. -/
def read2 : List Char → Option (Nat × List Char)
  | a :: b :: rest => do
    let x ← digitVal a
    let y ← digitVal b
    pure (x * 10 + y, rest)
  | _ => none

/-- Read exactly four digits from the front. -/
def read4 : List Char → Option (Nat × List Char)
  | a :: b :: c :: d :: rest => do
    let x ← digitVal a
    let y ← digitVal b
    let z ← digitVal c
    let w ← digitVal d
    pure (((x * 10 + y) * 10 + z) * 10 + w, rest)
  | _ => none

/-- `YYYY-MM-DD` grammar of CPython `parse_isoformat_date` (exactly
four, two and two digits separated by dashes). Pure grammar: the year /
month / day range checks live in the `date` constructor and are applied
separately, with their own error messages, in `fromisoformatE`. -/
def readIsoDate (cs : List Char) : Option (Nat × Nat × Nat × List Char) := do
  let (y, cs) ← read4 cs
  match cs with
  | '-' :: cs => do
    let (m, cs) ← read2 cs
    match cs with
    | '-' :: cs => do
      let (d, cs) ← read2 cs
      pure (y, m, d, cs)
    | _ => none
  | _ => none

/-- The fractional part of `parse_hh_mm_ss_ff`: exactly three or six
digits filling the remainder of the slice (`len_remains == 3 or 6`),
three digits meaning milliseconds. -/
def readFractionAll : List Char → Option Nat
  | [a, b, c] => do
    let x1 ← digitVal a
    let x2 ← digitVal b
    let x3 ← digitVal c
    pure ((x1 * 100 + x2 * 10 + x3) * 1000)
  | [a, b, c, d, e, f] => do
    let x1 ← digitVal a
    let x2 ← digitVal b
    let x3 ← digitVal c
    let x4 ← digitVal d
    let x5 ← digitVal e
    let x6 ← digitVal f
    pure (((((x1 * 10 + x2) * 10 + x3) * 10 + x4) * 10 + x5) * 10 + x6)
  | _ => none

/-- CPython 3.10 `parse_hh_mm_ss_ff` over a character slice: `HH`,
`HH:MM` or `HH:MM:SS`, optionally followed by a 3- or 6-digit fraction
ending the slice. The C loop reaches the fraction after a `.` following
any component, or after a third `:` (it breaks out of the component loop
on `.` and falls through after the seconds); both leniences are kept.
`lenient` records whether the slice is delimited by a timezone sign
rather than the end of the string: the C code reads one character past a
component and, when that character ends the slice, `return c != '\0'`
yields `rv == 1`, which the caller tolerates exactly when a timezone
follows. -/
def parse_hh_mm_ss_ff (lenient : Bool) (cs : List Char) :
    Option (Nat × Nat × Nat × Nat) := do
  let (h, cs) ← read2 cs
  match cs with
  | [] => pure (h, 0, 0, 0)
  | [_] => if lenient then pure (h, 0, 0, 0) else none
  | '.' :: rest => do
    let us ← readFractionAll rest
    pure (h, 0, 0, us)
  | ':' :: rest => do
    let (m, rest) ← read2 rest
    match rest with
    | [] => pure (h, m, 0, 0)
    | [_] => if lenient then pure (h, m, 0, 0) else none
    | '.' :: rest2 => do
      let us ← readFractionAll rest2
      pure (h, m, 0, us)
    | ':' :: rest2 => do
      let (s, rest3) ← read2 rest2
      match rest3 with
      | [] => pure (h, m, s, 0)
      | [_] => if lenient then pure (h, m, s, 0) else none
      | '.' :: rest4 => do
        let us ← readFractionAll rest4
        pure (h, m, s, us)
      | ':' :: rest4 => do
        let us ← readFractionAll rest4
        pure (h, m, s, us)
      | _ => none
    | _ => none
  | _ => none

/-- Split the time string at the first `+` or `-`: CPython scans the
whole time string for a sign; everything before it is the time, the sign
and everything after it the timezone. -/
def splitAtSign : List Char → List Char × List Char
  | [] => ([], [])
  | c :: rest =>
    if c = '+' ∨ c = '-' then ([], c :: rest)
    else
      let (a, b) := splitAtSign rest
      (c :: a, b)

/-- CPython 3.10 `parse_isoformat_time`: time components from the slice
before the sign, then a timezone suffix that — sign included — must be
exactly 6 (`±HH:MM`), 9 (`±HH:MM:SS`) or 16 (`±HH:MM:SS.ffffff`)
characters and parse strictly (`rv == 0`). Returns the time components
and, when a timezone is present, the magnitude of its offset in
microseconds; range checks happen in the constructors, in
`fromisoformatE`. -/
def parse_isoformat_time (tstr : List Char) :
    Option ((Nat × Nat × Nat × Nat) × Option Nat) := do
  let (timestr, tzstr) := splitAtSign tstr
  let comps ← parse_hh_mm_ss_ff (!tzstr.isEmpty) timestr
  match tzstr with
  | [] => pure (comps, none)
  | _ :: tzrest =>
    if tzstr.length = 6 ∨ tzstr.length = 9 ∨ tzstr.length = 16 then do
      let (th, tm, ts, tus) ← parse_hh_mm_ss_ff false tzrest
      pure (comps, some ((th * 3600 + tm * 60 + ts) * 1000000 + tus))
    else none

/-- The `timezone` constructor's rejection text. The real message ends
with the offending timedelta's repr (`, not datetime.timedelta(...)`),
which is not reproduced here: no claim touches this technical message,
only the fact of the failure. -/
def offsetErrMessage : String :=
  "offset must be a timedelta strictly between -timedelta(hours=24) and timedelta(hours=24)"

/-- Mirror of `datetime.fromisoformat` (CPython 3.10 C implementation):
`YYYY-MM-DD`, then optionally any single separator character and a time
part. Carries `str(e)` of the raised `ValueError`: the parser failures
all surface the catch-all `Invalid isoformat string: '...'`; the
`timezone` constructor rejects offsets of 24 hours or more (checked
before the field ranges); the `datetime` constructor checks
`MINYEAR = 1 <= year` (`<= 9999` holds by construction), month, day,
hour, minute and second, each with its own message. The timezone offset
is discarded after validation (see module header). -/
def fromisoformatE (s : String) : Except String PyDateTime :=
  let invalid : Except String PyDateTime :=
    .error ("Invalid isoformat string: \x27" ++ s ++ "\x27")
  let build : Nat → Nat → Nat → Nat → Nat → Nat → Nat → Except String PyDateTime :=
    fun y m d h mi se us =>
      if ¬ 1 ≤ y then .error ("year " ++ toString y ++ " is out of range")
      else if ¬ (1 ≤ m ∧ m ≤ 12) then .error "month must be in 1..12"
      else if ¬ (1 ≤ d ∧ d ≤ daysInMonth y m) then .error "day is out of range for month"
      else if ¬ h < 24 then .error "hour must be in 0..23"
      else if ¬ mi < 60 then .error "minute must be in 0..59"
      else if ¬ se < 60 then .error "second must be in 0..59"
      else .ok ⟨y, m, d, h, mi, se, us⟩
  match readIsoDate s.toList with
  | none => invalid
  | some (y, m, d, rest) =>
    match rest with
    | [] => build y m d 0 0 0 0
    | _ :: tstr =>
      match parse_isoformat_time tstr with
      | none => invalid
      | some ((h, mi, se, us), tzMag) =>
        match tzMag with
        | none => build y m d h mi se us
        | some mag =>
          if mag < 86400000000 then build y m d h mi se us
          else .error offsetErrMessage

/-- The `ToolExecutionError` class hierarchy: the base class and its three
subclasses. A value of this type is the dynamic class of a raised business
error; `className` is Python `e.__class__.__name__`, which the executor
uses as the Result's `error_type` tag. -/
inductive BusinessKind
  | toolExecutionBase
  | parameterValidation
  | dataAccess
  | businessLogic
deriving DecidableEq, Repr

def BusinessKind.className : BusinessKind → String
  | .toolExecutionBase => "ToolExecutionError"
  | .parameterValidation => "ParameterValidationError"
  | .dataAccess => "DataAccessError"
  | .businessLogic => "BusinessLogicError"

/-- A raised `ToolExecutionError`: `message` is the constructor's `message`
argument (also `str(e)`), `userMessageArg` the optional `user_message`
argument. -/
structure ToolExecutionErr where
  kind : BusinessKind
  message : String
  userMessageArg : Option String
deriving DecidableEq, Repr

/-- `self.user_message = user_message or message` (Python falsy fallback:
`None` and the empty string both fall back to `message`). -/
def ToolExecutionErr.user_message (e : ToolExecutionErr) : String :=
  match e.userMessageArg with
  | none => e.message
  | some um => if um = "" then e.message else um

/-- A raised `ToolNotFoundError`; carries only its message (`str(e)`). -/
structure ToolNotFoundErr where
  message : String
deriving DecidableEq, Repr

/-! ## Result envelope (backend/lib/result.py) -/

/-- `Result` dataclass, parametrised by the type of the `data` payload. -/
structure Result (δ : Type) where
  success : Bool
  data : Option δ := none
  error_message : Option String := none
  error_type : Option String := none
  user_message : Option String := none
  request_id : Option String := none
  traceback : Option String := none
deriving DecidableEq, Repr

/-- `Result.success_result`. -/
def Result.success_result {δ : Type} (data : δ) (request_id : String) : Result δ :=
  { success := true, data := some data, request_id := some request_id }

/-- `Result.error_result`; `user_message or message` is the same Python
falsy fallback as in `ToolExecutionError`. -/
def Result.error_result {δ : Type} (message : String) (request_id : String)
    (error_type : String) (user_message : Option String)
    (traceback : Option String) : Result δ :=
  { success := false
    error_message := some message
    error_type := some error_type
    user_message := some (match user_message with
      | none => message
      | some um => if um = "" then message else um)
    request_id := some request_id
    traceback := traceback }

/-! ## Force-load model (backend/models/ingestor_force.py) -/

/-- One row of force-load configuration data: a dict with (up to) the three
required keys. `none` models an absent key, `some ""` a key present with an
empty value — the distinction matters: `validate_config` checks key
presence (`k not in row`) separately from value truthiness
(`not row.get(k)`). -/
structure ConfigRow where
  configName : Option String := none
  key : Option String := none
  group : Option String := none
deriving DecidableEq, Repr

def ConfigRow.get : ConfigRow → String → Option String
  | row, "configName" => row.configName
  | row, "key" => row.key
  | row, "group" => row.group
  | _, _ => none

def requiredKeys : List String := ["configName", "key", "group"]

/-- `k in row`. -/
def ConfigRow.hasKey (row : ConfigRow) (k : String) : Bool :=
  (row.get k).isSome

/-- `bool(row.get(k))`: the key is present with a non-empty value. -/
def ConfigRow.truthy (row : ConfigRow) (k : String) : Bool :=
  match row.get k with
  | none => false
  | some s => s ≠ ""

/-- Python `repr` of a list of strings, e.g. `['a', 'b']` — used in
f-strings that interpolate lists. -/
def pyStrListRepr (xs : List String) : String :=
  "[" ++ String.intercalate ", " (xs.map (fun s => "\x27" ++ s ++ "\x27")) ++ "]"

def commaJoin (xs : List String) : String :=
  String.intercalate ", " xs

/-- Python `dict` lookup (`d[k]` / `k in d`) for string-keyed dicts kept
as insertion-ordered association lists. -/
def dictLookup {β : Type} : List (String × β) → String → Option β
  | [], _ => none
  | (k, v) :: tl, key => if key = k then some v else dictLookup tl key

/-- The canned table data (`FORCE_LOAD_TABLES` in ingestor_force.py). -/
structure TableConfig where
  description : String
  data : List ConfigRow
deriving DecidableEq, Repr

def FORCE_LOAD_TABLES : List (String × TableConfig) :=
  [("Inflation Env",
    { description := "Inflation environment configuration"
      data :=
        [⟨some "Config1", some "inflation.rate", some "ENV"⟩,
         ⟨some "Config2", some "inflation.curve", some "ENV"⟩,
         ⟨some "Config3", some "inflation.spread", some "ENV"⟩] }),
   ("Options ScenarioGamma",
    { description := "Options scenario gamma configuration"
      data :=
        [⟨some "Gamma1", some "gamma.scenario.base", some "OPTS"⟩,
         ⟨some "Gamma2", some "gamma.scenario.stress", some "OPTS"⟩] })]

def forceLoadTableNames : List String := FORCE_LOAD_TABLES.map Prod.fst

/-- `IngestorForceModel.get_default_config`. -/
def IngestorForceModel.get_default_config (table_name : String) :
    Except ToolExecutionErr (List ConfigRow) :=
  match (dictLookup FORCE_LOAD_TABLES table_name) with
  | none => .error ⟨.parameterValidation,
      "Table \x27" ++ table_name ++ "\x27 not found in configuration",
      some ("Unknown table: " ++ table_name)⟩
  | some tc => .ok tc.data

/-- `IngestorForceModel.get_table_schema`. -/
def IngestorForceModel.get_table_schema (table_name : String) :
    Except ToolExecutionErr TableConfig :=
  match (dictLookup FORCE_LOAD_TABLES table_name) with
  | none => .error ⟨.parameterValidation,
      "Table \x27" ++ table_name ++ "\x27 not found in configuration",
      some ("Unknown table: " ++ table_name)⟩
  | some tc => .ok tc

/-- The per-row body of `validate_config`'s loop, from row index `i`
(0-based) onward; raises via `.error`, falls through via `.ok`. The loop
locals `missing_keys = [k for k in required_keys if k not in row]`,
`all_empty = all(not row.get(k) ...)` and `some_empty = any(not
row.get(k) ...)` are inlined. -/
def validateRows : Nat → List ConfigRow → Except ToolExecutionErr Unit
  | _, [] => .ok ()
  | i, row :: rest =>
    if requiredKeys.filter (fun k => ! row.hasKey k) ≠ [] then
      .error ⟨.parameterValidation,
        "Row " ++ toString i ++ " missing required keys: " ++
          pyStrListRepr (requiredKeys.filter (fun k => ! row.hasKey k)),
        some ("Row " ++ toString (i + 1) ++ " is missing required fields")⟩
    else if (requiredKeys.any fun k => ! row.truthy k) ∧
        ¬ (requiredKeys.all fun k => ! row.truthy k) then
      .error ⟨.parameterValidation,
        "Row " ++ toString i ++ " has incomplete data",
        some ("Row " ++ toString (i + 1) ++ " must have all fields filled or be empty")⟩
    else validateRows (i + 1) rest

/-- `IngestorForceModel.validate_config`. -/
def IngestorForceModel.validate_config (config_data : List ConfigRow) :
    Except ToolExecutionErr Unit :=
  if config_data.isEmpty then
    .error ⟨.parameterValidation,
      "Configuration data cannot be empty",
      some "Please provide at least one configuration row"⟩
  else validateRows 0 config_data

/-- One synthesized output record of `execute_force_load`
(`row.get(k, '')` defaults absent keys to the empty string). -/
structure ForceLoadRecord where
  configName : String
  key : String
  group : String
  LastLoadedTS : String
  ProcessTS : String
  COB : String
  LoadID : String
  DataSourceWindows : String
deriving DecidableEq, Repr

/-- The dict returned by `execute_force_load`. -/
structure ForceLoadResult where
  success : Bool
  message : String
  rows_processed : Nat
  table_name : String
  records : List ForceLoadRecord
deriving DecidableEq, Repr

/-- `random.randint(lo, hi)` (inclusive bounds), reading draw number `idx`
from an explicit randomness source `rand`. -/
def randint (rand : Nat → Nat) (idx lo hi : Nat) : Nat :=
  lo + rand idx % (hi - lo + 1)

/-- `base_date = datetime(2025, 1, 15)`. -/
def forceBaseDate : PyDateTime := ⟨2025, 1, 15, 0, 0, 0, 0⟩

/-- Loop body of `execute_force_load`: the record synthesized for valid row
number `i` (0-based, counted over the filtered rows). Each row consumes
five `randint` draws, in program order. -/
def mkForceRecord (rand : Nat → Nat) (i : Nat) (row : ConfigRow) : ForceLoadRecord :=
  let last_loaded_ts := (forceBaseDate.subDays (randint rand (5 * i) 1 30)).strftimeDateTime
  let process_ts := (forceBaseDate.subDays (randint rand (5 * i + 1) 0 5)).strftimeDateTime
  let cob := (forceBaseDate.subDays (randint rand (5 * i + 2) 0 3)).strftimeDate
  let load_id := "LD" ++ toString (randint rand (5 * i + 3) 10000 99999)
  let data_source_windows := "Window_" ++ toString (randint rand (5 * i + 4) 1 5)
  { configName := (row.configName).getD ""
    key := (row.key).getD ""
    group := (row.group).getD ""
    LastLoadedTS := last_loaded_ts
    ProcessTS := process_ts
    COB := cob
    LoadID := load_id
    DataSourceWindows := data_source_windows }

/-- `IngestorForceModel.execute_force_load`. Filters out rows with no
truthy required field, synthesizes one record per remaining row; `dry_run`
only selects the `mode` word of the result message. -/
def IngestorForceModel.execute_force_load (rand : Nat → Nat) (table_name : String)
    (config_data : List ConfigRow) (dry_run : Bool) : ForceLoadResult :=
  let valid_rows := config_data.filter
    (fun row => requiredKeys.any (fun k => row.truthy k))
  let records := (valid_rows.enum).map (fun ri => mkForceRecord rand ri.1 ri.2)
  let mode := if dry_run then "dry run" else "force load"
  { success := true
    message := "Successfully completed " ++ mode ++ " for " ++
      toString valid_rows.length ++ " configurations to " ++ table_name
    rows_processed := valid_rows.length
    table_name := table_name
    records := records }

/-! ## Timeline model (backend/models/ingestor_timeline.py) -/

/-- One row of the mock timeline DataFrame. -/
structure TimelineRecord where
  TS : PyDateTime
  COB : PyDate
  data : String
  overwrite : Bool
deriving DecidableEq, Repr

def RAD_TIMELINE_DESKS : List String :=
  ["Options", "Exotics", "Inflation", "LDFX", "FXG"]

/-- `IngestorTimelineModel._get_mock_data`: 10 records at hourly offsets
from the query date; `overwrite` is `bool(i % 2)`. -/
def IngestorTimelineModel.get_mock_data (desk : String) (date : PyDateTime) :
    List TimelineRecord :=
  (List.range 10).map (fun i =>
    { TS := date.addHours i
      COB := date.date
      data := "/NLRAD/" ++ desk ++ "/path_" ++ toString i
      overwrite := i % 2 ≠ 0 })

/-- `get_timeline_data` just delegates to the mock query. -/
def IngestorTimelineModel.get_timeline_data (desk : String) (date : PyDateTime) :
    List TimelineRecord :=
  IngestorTimelineModel.get_mock_data desk date

/-- `df['TS'].min()` / `.max()` over the mock frame, as `Option` for the
empty case (the Python code guards `len(df) > 0`). Comparison is the
lexicographic order on datetime fields. -/
def PyDateTime.le (a b : PyDateTime) : Bool :=
  (a.year, a.month, a.day, a.hour, a.minute, a.second, a.microsecond) ≤
    (b.year, b.month, b.day, b.hour, b.minute, b.second, b.microsecond)

def tsMin : List PyDateTime → Option PyDateTime
  | [] => none
  | x :: xs => some (xs.foldl (fun acc t => if PyDateTime.le t acc then t else acc) x)

def tsMax : List PyDateTime → Option PyDateTime
  | [] => none
  | x :: xs => some (xs.foldl (fun acc t => if PyDateTime.le acc t then t else acc) x)

/-- The summary dict of `process_timeline_data`. -/
structure TimelineSummary where
  total_records : Nat
  overwrite_count : Nat
  earliest : Option String
  latest : Option String
deriving DecidableEq, Repr

/-- The dict returned by `process_timeline_data` (the redundant
`dataframe` echo of `records` is not duplicated here). -/
structure TimelineData where
  records : List TimelineRecord
  summary : TimelineSummary
deriving DecidableEq, Repr

/-- `IngestorTimelineModel.process_timeline_data`. -/
def IngestorTimelineModel.process_timeline_data (df : List TimelineRecord) :
    TimelineData :=
  { records := df
    summary :=
      { total_records := df.length
        overwrite_count := (df.filter (fun r => r.overwrite)).length
        earliest := (tsMin (df.map (fun r => r.TS))).map PyDateTime.isoformat
        latest := (tsMax (df.map (fun r => r.TS))).map PyDateTime.isoformat } }

/-! ## Tool contract (backend/core/base_tool.py) -/

/-- The caller-supplied `params` bag, restricted to the shapes the two
registered tools accept. `none` in an optional field models an omitted
keyword argument (the Python default then applies). -/
inductive ToolParams
  | timeline (desk : String) (date : String)
  | forceLoad (table_name : String) (action : Option String)
      (config : Option (List ConfigRow)) (dry_run : Option Bool)
deriving DecidableEq

/-- The `data` payload a tool's `run` returns. -/
inductive ToolData
  | timeline (d : TimelineData)
  | forceDefault (config : List ConfigRow) (schema : TableConfig) (table_name : String)
  | forceResult (r : ForceLoadResult)
deriving DecidableEq

/-- `ExecutionContext` dataclass (the bound logger handle is a pure side
effect and is dropped). -/
structure ExecutionContext where
  request_id : String
  user : String
  timestamp : PyDateTime
  tool_path : String
  params : ToolParams
deriving DecidableEq

/-- The possible outcomes of `tool.run(context, **params)`:
normal return, a raised `ToolExecutionError`, or any other raised
exception (message + formatted traceback). -/
inductive RunOutcome
  | ok (data : ToolData)
  | businessError (e : ToolExecutionErr)
  | otherExc (message : String) (tb : String)
deriving DecidableEq

/-- A tool class: `category` / `name` class attributes (Python default is
`None`) and the `run` method. `rand` threads the `random` module source
into `run`. -/
structure ToolClass where
  category : Option String := none
  name : Option String := none
  run : (Nat → Nat) → ExecutionContext → ToolParams → RunOutcome

/-- Python truthiness of an optional string attribute. -/
def attrTruthy : Option String → Bool
  | none => false
  | some s => s ≠ ""

/-- `BaseTool.full_path`: `f"{self.category}/{self.name}"`. -/
def ToolClass.full_path (tc : ToolClass) : String :=
  (tc.category).getD "" ++ "/" ++ (tc.name).getD ""

/-! ## Timeline tool (backend/tools/RAD/ingestor/timeline_tool.py) -/

/-- `TimelineTool.run`. -/
def TimelineTool.runFn (_ctx : ExecutionContext) (desk date : String) : RunOutcome :=
  if desk ∉ RAD_TIMELINE_DESKS then
    .businessError ⟨.parameterValidation,
      "Invalid desk \x27" ++ desk ++ "\x27. Must be one of: " ++ pyStrListRepr RAD_TIMELINE_DESKS,
      some ("Please select a valid desk: " ++ commaJoin RAD_TIMELINE_DESKS)⟩
  else
    match fromisoformatE date with
    | .error msg =>
      .businessError ⟨.parameterValidation,
        "Invalid date format: " ++ msg,
        some "Please provide date in YYYY-MM-DD format"⟩
    | .ok date_obj =>
      let df := IngestorTimelineModel.get_timeline_data desk date_obj
      .ok (.timeline (IngestorTimelineModel.process_timeline_data df))

/-! ## Force-load tool (backend/tools/RAD/ingestor/force_load_tool.py) -/

/-- `ForceLoadTool.run`, with the Python defaults applied to omitted
keyword arguments: `action='save'`, `config=None`, `dry_run=True`. -/
def ForceLoadTool.runFn (rand : Nat → Nat) (_ctx : ExecutionContext)
    (table_name : String) (actionArg : Option String)
    (config : Option (List ConfigRow)) (dryRunArg : Option Bool) : RunOutcome :=
  let action := actionArg.getD "save"
  let dry_run := dryRunArg.getD true
  if table_name ∉ forceLoadTableNames then
    .businessError ⟨.parameterValidation,
      "Invalid table \x27" ++ table_name ++ "\x27. Must be one of: " ++
        pyStrListRepr forceLoadTableNames,
      some ("Please select a valid table: " ++ commaJoin forceLoadTableNames)⟩
  else if action = "get_default" then
    match IngestorForceModel.get_default_config table_name with
    | .error e => .businessError e
    | .ok default_config =>
      match IngestorForceModel.get_table_schema table_name with
      | .error e => .businessError e
      | .ok schema => .ok (.forceDefault default_config schema table_name)
  else if action = "force_load" then
    match config with
    | none =>
      .businessError ⟨.parameterValidation,
        "config parameter is required for \x27force_load\x27 action",
        some "Configuration data is required"⟩
    | some cfg =>
      match IngestorForceModel.validate_config cfg with
      | .error e => .businessError e
      | .ok _ =>
        .ok (.forceResult (IngestorForceModel.execute_force_load rand table_name cfg dry_run))
  else if action = "save" then
    match config with
    | none =>
      .businessError ⟨.parameterValidation,
        "config parameter is required for \x27save\x27 action",
        some "Configuration data is required"⟩
    | some cfg =>
      match IngestorForceModel.validate_config cfg with
      | .error e => .businessError e
      | .ok _ =>
        .ok (.forceResult (IngestorForceModel.execute_force_load rand table_name cfg false))
  else
    .businessError ⟨.parameterValidation,
      "Invalid action \x27" ++ action ++ "\x27. Must be \x27get_default\x27, \x27force_load\x27, or \x27save\x27",
      some "Invalid action specified"⟩

/-- The `TimelineTool` class. Calling it with the other tool's keyword
arguments is a Python `TypeError` — an unclassified exception. -/
def TimelineToolClass : ToolClass :=
  { category := some "RAD/ingestor"
    name := some "timeline"
    run := fun _rand ctx p =>
      match p with
      | .timeline desk date => TimelineTool.runFn ctx desk date
      | _ => .otherExc "TypeError: run() got an unexpected keyword argument"
          "Traceback (most recent call last): TypeError" }

/-- The `ForceLoadTool` class. -/
def ForceLoadToolClass : ToolClass :=
  { category := some "RAD/Ingestor"
    name := some "Force Load"
    run := fun rand ctx p =>
      match p with
      | .forceLoad table_name action config dry_run =>
        ForceLoadTool.runFn rand ctx table_name action config dry_run
      | _ => .otherExc "TypeError: run() got an unexpected keyword argument"
          "Traceback (most recent call last): TypeError" }

/-! ## Registry (backend/core/registry.py) -/

/-- `self._tools`: dict from path to tool class, as an
insertion-ordered association list (Python dicts preserve insertion
order; registration only ever adds fresh keys). -/
structure Registry where
  tools : List (String × ToolClass)

/-- `Registry._register_tool`. Instantiation (`tool_class()`) raises when
`category`/`name` are falsy; that exception is caught *inside*
`_register_tool`, which prints a warning and returns without registering.
A duplicate path, by contrast, raises `ValueError` out of
`_register_tool`. -/
def Registry.registerTool (r : Registry) (tc : ToolClass) : Except String Registry :=
  if ¬ (attrTruthy tc.category ∧ attrTruthy tc.name) then
    .ok r
  else if (dictLookup r.tools tc.full_path).isSome then
    .error ("Duplicate tool path \x27" ++ tc.full_path ++ "\x27")
  else
    .ok ⟨r.tools ++ [(tc.full_path, tc)]⟩

/-- One step of `Registry._walk_package`'s loop: the whole module import —
including the `_register_tool` call (each tool module in this repository
defines exactly one `BaseTool` subclass) — sits in a
`try/except Exception` that prints a warning and continues, so a raised
`ValueError` from registration is swallowed and the accumulator kept. -/
def Registry.walkStep (r : Registry) (tc : ToolClass) : Registry :=
  match r.registerTool tc with
  | .ok r2 => r2
  | .error _ => r

/-- `Registry._walk_package` over the discovered module/class sequence. -/
def Registry.walkPackage (r : Registry) (classes : List ToolClass) : Registry :=
  classes.foldl Registry.walkStep r

/-- `Registry.__init__` / `_discover_tools`: walk from an empty mapping. -/
def Registry.discover (classes : List ToolClass) : Registry :=
  Registry.walkPackage ⟨[]⟩ classes

/-- `Registry.list_all_tools`: `list(self._tools.keys())`. -/
def Registry.list_all_tools (r : Registry) : List String :=
  r.tools.map Prod.fst

/-- `Registry.get_tool`: lookup, else `ToolNotFoundError` whose message
interpolates the list of all registered paths. -/
def Registry.get_tool (r : Registry) (path : String) :
    Except ToolNotFoundErr ToolClass :=
  match dictLookup r.tools path with
  | none => .error ⟨"Tool not found: " ++ path ++ ". Available tools: " ++
      pyStrListRepr r.list_all_tools⟩
  | some tc => .ok tc

/-- Python `path.split('/')` on the character list (empty separator runs
produce empty segments, exactly like `str.split` with an explicit
separator). -/
def splitSlashAux : List Char → List Char → List String
  | [], acc => [String.mk acc.reverse]
  | c :: rest, acc =>
    if c = '/' then String.mk acc.reverse :: splitSlashAux rest []
    else splitSlashAux rest (c :: acc)

/-- Python `path.split('/')`. -/
def pySplitSlash (s : String) : List String := splitSlashAux s.toList []

/-- The nested navigation dict built by `_build_structure`: child
categories plus the `_tools` leaf-name list at this level. -/
inductive NavStructure
  | node (children : List (String × NavStructure)) (tools : List String)

def NavStructure.children : NavStructure → List (String × NavStructure)
  | .node cs _ => cs

def NavStructure.tools : NavStructure → List String
  | .node _ ts => ts

def NavStructure.empty : NavStructure := .node [] []

def NavStructure.lookupChild (st : NavStructure) (k : String) : Option NavStructure :=
  dictLookup st.children k

def NavStructure.childKeys (st : NavStructure) : List String :=
  st.children.map Prod.fst

/-- Insert one split path (`parts`): descend/create nodes for all but the
last segment, append the last segment to that node's `_tools` list. -/
def NavStructure.insertPath (st : NavStructure) : List String → NavStructure
  | [] => st
  | [last] => .node st.children (st.tools ++ [last])
  | part :: rest =>
    if (dictLookup st.children part).isSome then
      .node (st.children.map (fun kv =>
        if kv.1 = part then (kv.1, NavStructure.insertPath kv.2 rest) else kv)) st.tools
    else
      .node (st.children ++ [(part, NavStructure.insertPath NavStructure.empty rest)]) st.tools

/-- `Registry._build_structure` / `get_structure`: fold every registered
path (in registration order) into the tree. -/
def Registry.get_structure (r : Registry) : NavStructure :=
  r.list_all_tools.foldl (fun st path => st.insertPath (pySplitSlash path))
    NavStructure.empty

/-- The registry the running process builds: `pkgutil.walk_packages` over
`backend/tools` yields the two tool modules in directory order
(`force_load_tool.py` before `timeline_tool.py`). -/
def realRegistry : Registry :=
  Registry.discover [ForceLoadToolClass, TimelineToolClass]

/-! ## Executor (backend/core/executor.py) -/

/-- The fixed `user_message` of the unexpected-error branch. -/
def unexpectedUserMessage : String :=
  "An unexpected error occurred. Please contact support."

/-- `ToolExecutor.execute`. `request_id` (uuid4), `timestamp` (utcnow) and
`rand` (the `random` module) are the call's ambient nondeterminism, passed
explicitly. Every raise inside the `try` is caught and converted to an
error `Result`; the function is total and always returns a `Result`. -/
def ToolExecutor.execute (registry : Registry) (rand : Nat → Nat)
    (user tool_path : String) (params : ToolParams)
    (request_id : String) (timestamp : PyDateTime) : Result ToolData :=
  let context : ExecutionContext :=
    { request_id := request_id, user := user, timestamp := timestamp
      tool_path := tool_path, params := params }
  match registry.get_tool tool_path with
  | .error e =>
    Result.error_result e.message request_id "ToolNotFound"
      (some ("Tool \x27" ++ tool_path ++ "\x27 does not exist")) none
  | .ok tool =>
    match tool.run rand context params with
    | .ok data => Result.success_result data request_id
    | .businessError e =>
      Result.error_result e.message request_id e.kind.className
        (some e.user_message) none
    | .otherExc msg tb =>
      Result.error_result msg request_id "UnexpectedError"
        (some unexpectedUserMessage) (some tb)

/-! ## Helper lemmas -/

theorem lookup_some_mem {β : Type} {l : List (String × β)} {k : String} {v : β}
    (h : dictLookup l k = some v) : (k, v) ∈ l := by
  induction l with
  | nil => cases h
  | cons hd tl ih =>
    obtain ⟨k1, v1⟩ := hd
    by_cases hk : k = k1
    · subst hk
      simp [dictLookup] at h
      subst h
      exact List.mem_cons_self _ _
    · simp [dictLookup, hk] at h
      exact List.mem_cons_of_mem _ (ih h)

theorem lookup_isSome_iff_mem {β : Type} {l : List (String × β)} {k : String} :
    (dictLookup l k).isSome ↔ k ∈ l.map Prod.fst := by
  induction l with
  | nil => simp [dictLookup]
  | cons hd tl ih =>
    obtain ⟨k1, v1⟩ := hd
    by_cases hk : k = k1
    · subst hk
      simp [dictLookup]
    · simp [dictLookup, hk, ih]

/-- A `Registry` is well formed when every entry is keyed by its tool
class's `full_path`; discovery only ever produces such registries. -/
def Registry.wellFormed (r : Registry) : Prop :=
  ∀ p tc, (p, tc) ∈ r.tools → p = tc.full_path

theorem registerTool_wellFormed {r : Registry} {tc : ToolClass} {r2 : Registry}
    (hwf : r.wellFormed) (h : r.registerTool tc = .ok r2) : r2.wellFormed := by
  unfold Registry.registerTool at h
  split at h
  · cases h
    exact hwf
  · split at h
    · cases h
    · cases h
      intro p tc2 hmem
      rcases List.mem_append.mp hmem with hl | hr
      · exact hwf p tc2 hl
      · have h2 := List.mem_singleton.mp hr
        have hp : p = tc.full_path := congrArg Prod.fst h2
        have htc : tc2 = tc := congrArg Prod.snd h2
        rw [hp, htc]

theorem walkStep_wellFormed {r : Registry} {tc : ToolClass}
    (hwf : r.wellFormed) : (Registry.walkStep r tc).wellFormed := by
  unfold Registry.walkStep
  rcases h : r.registerTool tc with e | r2
  · exact hwf
  · exact registerTool_wellFormed hwf h

theorem walkPackage_wellFormed {r : Registry} (hwf : r.wellFormed)
    (classes : List ToolClass) : (r.walkPackage classes).wellFormed := by
  induction classes generalizing r with
  | nil => exact hwf
  | cons hd tl ih =>
    exact ih (walkStep_wellFormed hwf)

theorem discover_wellFormed (classes : List ToolClass) :
    (Registry.discover classes).wellFormed := by
  unfold Registry.discover
  refine walkPackage_wellFormed ?_ classes
  intro p tc hmem
  simp at hmem

/-- Zeta-free unfolding of `get_tool` for rewriting. -/
theorem get_tool_lookup_none {r : Registry} {path : String}
    (h : dictLookup r.tools path = none) :
    r.get_tool path = .error ⟨"Tool not found: " ++ path ++ ". Available tools: " ++
      pyStrListRepr r.list_all_tools⟩ := by
  unfold Registry.get_tool
  rw [h]

theorem get_tool_lookup_some {r : Registry} {path : String} {tc : ToolClass}
    (h : dictLookup r.tools path = some tc) : r.get_tool path = .ok tc := by
  unfold Registry.get_tool
  rw [h]

/-- `get_tool` succeeds exactly on the registered paths. -/
theorem get_tool_ok_iff_mem (r : Registry) (path : String) :
    (∃ tool, r.get_tool path = .ok tool) ↔ path ∈ r.list_all_tools := by
  constructor
  · rintro ⟨tool, htool⟩
    rcases hl : dictLookup r.tools path with _ | tc
    · rw [get_tool_lookup_none hl] at htool
      cases htool
    · have : (dictLookup r.tools path).isSome := by rw [hl]; rfl
      exact lookup_isSome_iff_mem.mp this
  · intro hmem
    have hs : (dictLookup r.tools path).isSome := lookup_isSome_iff_mem.mpr hmem
    rcases hl : dictLookup r.tools path with _ | tc
    · rw [hl] at hs
      cases hs
    · exact ⟨tc, get_tool_lookup_some hl⟩

/-- In `Result.error_result(message=str(e), user_message=e.user_message)`
the falsy fallback is the identity: `e.user_message` can only be empty
when `e.message` is, so the caller-facing message survives verbatim. -/
theorem user_message_verbatim (e : ToolExecutionErr) :
    (if e.user_message = "" then e.message else e.user_message) = e.user_message := by
  unfold ToolExecutionErr.user_message
  rcases h : e.userMessageArg with _ | um
  · simp
  · by_cases hum : um = "" <;> simp [hum]

/-- Zeta-free unfolding of `ToolExecutor.execute` for rewriting (the
`let context := ...` in the source is definitional). -/
theorem execute_unfold (registry : Registry) (rand : Nat → Nat)
    (user tool_path : String) (params : ToolParams)
    (request_id : String) (timestamp : PyDateTime) :
    ToolExecutor.execute registry rand user tool_path params request_id timestamp =
      match registry.get_tool tool_path with
      | .error e =>
        Result.error_result e.message request_id "ToolNotFound"
          (some ("Tool \x27" ++ tool_path ++ "\x27 does not exist")) none
      | .ok tool =>
        match tool.run rand ⟨request_id, user, timestamp, tool_path, params⟩ params with
        | .ok data => Result.success_result data request_id
        | .businessError e =>
          Result.error_result e.message request_id e.kind.className
            (some e.user_message) none
        | .otherExc msg tb =>
          Result.error_result msg request_id "UnexpectedError"
            (some unexpectedUserMessage) (some tb) := rfl

/-! ## Claim theorems -/

/-- C1: `Executor.execute` is a total function into `Result` (it never
raises — every exceptional outcome of lookup or of the tool's `run` is
caught and converted), and the returned Result has `success = true`
exactly when the tool was found and its `run` returned normally. -/
theorem C1_execute_total_success_iff (registry : Registry) (rand : Nat → Nat)
    (user tool_path : String) (params : ToolParams)
    (request_id : String) (timestamp : PyDateTime) :
    (ToolExecutor.execute registry rand user tool_path params request_id timestamp).success = true
      ↔ ∃ tool data, registry.get_tool tool_path = .ok tool ∧
          tool.run rand ⟨request_id, user, timestamp, tool_path, params⟩ params =
            .ok data := by
  rw [execute_unfold]
  rcases hg : registry.get_tool tool_path with e | tool
  · simp [Result.error_result]
  · rcases hr : tool.run rand ⟨request_id, user, timestamp, tool_path, params⟩ params
      with data | e | ⟨m, tb⟩ <;>
    simp [hr, Result.success_result, Result.error_result]

/-- C2: a classified business error surfaces its own class name as
`error_type` and its caller-facing `user_message` verbatim, with no
traceback; any other exception surfaces the fixed `UnexpectedError`
envelope — static generic `user_message` independent of the exception's
text — with the traceback attached. -/
theorem C2_error_result_classification (registry : Registry) (rand : Nat → Nat)
    (user tool_path : String) (params : ToolParams)
    (request_id : String) (timestamp : PyDateTime) (tool : ToolClass)
    (hget : registry.get_tool tool_path = .ok tool) :
    (∀ e, tool.run rand ⟨request_id, user, timestamp, tool_path, params⟩ params =
        .businessError e →
      (ToolExecutor.execute registry rand user tool_path params request_id timestamp).error_type
          = some e.kind.className ∧
      (ToolExecutor.execute registry rand user tool_path params request_id timestamp).user_message
          = some e.user_message ∧
      (ToolExecutor.execute registry rand user tool_path params request_id timestamp).traceback
          = none) ∧
    (∀ msg tb, tool.run rand ⟨request_id, user, timestamp, tool_path, params⟩ params =
        .otherExc msg tb →
      (ToolExecutor.execute registry rand user tool_path params request_id timestamp).error_type
          = some "UnexpectedError" ∧
      (ToolExecutor.execute registry rand user tool_path params request_id timestamp).user_message
          = some unexpectedUserMessage ∧
      (ToolExecutor.execute registry rand user tool_path params request_id timestamp).traceback
          = some tb) := by
  constructor
  · intro e hrun
    rw [execute_unfold, hget]
    simp only [hrun]
    refine ⟨rfl, ?_, rfl⟩
    show some (if e.user_message = "" then e.message else e.user_message) = some e.user_message
    rw [user_message_verbatim e]
  · intro msg tb hrun
    rw [execute_unfold, hget]
    simp only [hrun]
    refine ⟨rfl, ?_, rfl⟩
    show some (if unexpectedUserMessage = "" then msg else unexpectedUserMessage) =
      some unexpectedUserMessage
    rw [if_neg (by decide : ¬ unexpectedUserMessage = "")]

/-- Witness for C2: concrete calls through the real registry — an invalid
desk raises `ParameterValidationError` (surfaced verbatim, no traceback),
and calling the timeline tool with the wrong keyword arguments is an
unclassified `TypeError` (surfaced as `UnexpectedError` with the static
message and a traceback). -/
theorem C2_error_result_classification_witness :
    ((ToolExecutor.execute realRegistry (fun _ => 0) "alice" "RAD/ingestor/timeline"
        (ToolParams.timeline "NotADesk" "2025-01-15") "rid-1" forceBaseDate).error_type
      = some "ParameterValidationError" ∧
     (ToolExecutor.execute realRegistry (fun _ => 0) "alice" "RAD/ingestor/timeline"
        (ToolParams.timeline "NotADesk" "2025-01-15") "rid-1" forceBaseDate).user_message
      = some "Please select a valid desk: Options, Exotics, Inflation, LDFX, FXG" ∧
     (ToolExecutor.execute realRegistry (fun _ => 0) "alice" "RAD/ingestor/timeline"
        (ToolParams.timeline "NotADesk" "2025-01-15") "rid-1" forceBaseDate).traceback
      = none) ∧
    ((ToolExecutor.execute realRegistry (fun _ => 0) "alice" "RAD/ingestor/timeline"
        (ToolParams.forceLoad "Inflation Env" none none none) "rid-2" forceBaseDate).error_type
      = some "UnexpectedError" ∧
     (ToolExecutor.execute realRegistry (fun _ => 0) "alice" "RAD/ingestor/timeline"
        (ToolParams.forceLoad "Inflation Env" none none none) "rid-2" forceBaseDate).user_message
      = some unexpectedUserMessage ∧
     (ToolExecutor.execute realRegistry (fun _ => 0) "alice" "RAD/ingestor/timeline"
        (ToolParams.forceLoad "Inflation Env" none none none) "rid-2" forceBaseDate).traceback
      = some "Traceback (most recent call last): TypeError") := by
  constructor
  · have h := (C2_error_result_classification realRegistry (fun _ => 0) "alice"
      "RAD/ingestor/timeline" (ToolParams.timeline "NotADesk" "2025-01-15")
      "rid-1" forceBaseDate TimelineToolClass rfl).1
      ⟨.parameterValidation,
        "Invalid desk \x27NotADesk\x27. Must be one of: " ++ pyStrListRepr RAD_TIMELINE_DESKS,
        some ("Please select a valid desk: " ++ commaJoin RAD_TIMELINE_DESKS)⟩ rfl
    exact ⟨h.1, h.2.1, h.2.2⟩
  · have h := (C2_error_result_classification realRegistry (fun _ => 0) "alice"
      "RAD/ingestor/timeline" (ToolParams.forceLoad "Inflation Env" none none none)
      "rid-2" forceBaseDate TimelineToolClass rfl).2
      "TypeError: run() got an unexpected keyword argument"
      "Traceback (most recent call last): TypeError" rfl
    exact ⟨h.1, h.2.1, h.2.2⟩

/-- C3: on any discovered registry, `get_tool` of a registered path
returns a (freshly instantiated — tools are stateless values here) tool
whose `full_path` equals the path, every registered path resolves, and an
unregistered path fails with `ToolNotFound` whose payload interpolates the
list of all currently-registered paths. -/
theorem C3_get_tool_contract (classes : List ToolClass) (path : String) :
    (∀ tool, (Registry.discover classes).get_tool path = .ok tool →
      tool.full_path = path) ∧
    (path ∈ (Registry.discover classes).list_all_tools →
      ∃ tool, (Registry.discover classes).get_tool path = .ok tool) ∧
    (path ∉ (Registry.discover classes).list_all_tools →
      (Registry.discover classes).get_tool path =
        .error ⟨"Tool not found: " ++ path ++ ". Available tools: " ++
          pyStrListRepr (Registry.discover classes).list_all_tools⟩) := by
  refine ⟨?_, ?_, ?_⟩
  · intro tool htool
    rcases hl : dictLookup (Registry.discover classes).tools path with _ | tc
    · rw [get_tool_lookup_none hl] at htool
      cases htool
    · rw [get_tool_lookup_some hl] at htool
      cases htool
      exact (discover_wellFormed classes path tool (lookup_some_mem hl)).symm
  · intro hmem
    exact (get_tool_ok_iff_mem _ _).mpr hmem
  · intro hnot
    rcases hl : dictLookup (Registry.discover classes).tools path with _ | tc
    · exact get_tool_lookup_none hl
    · exact absurd ((get_tool_ok_iff_mem _ _).mp ⟨tc, get_tool_lookup_some hl⟩) hnot

/-- Witness for C3 on the real registry: the registered timeline path
resolves to a tool whose `full_path` is that path, and an unregistered
path fails with the payload listing both registered paths. -/
theorem C3_get_tool_contract_witness :
    TimelineToolClass.full_path = "RAD/ingestor/timeline" ∧
    (∃ tool, realRegistry.get_tool "RAD/ingestor/timeline" = .ok tool) ∧
    realRegistry.get_tool "RAD/missing" =
      .error ⟨"Tool not found: RAD/missing. Available tools: " ++
        pyStrListRepr realRegistry.list_all_tools⟩ := by
  have h1 := C3_get_tool_contract [ForceLoadToolClass, TimelineToolClass]
    "RAD/ingestor/timeline"
  have h2 := C3_get_tool_contract [ForceLoadToolClass, TimelineToolClass] "RAD/missing"
  exact ⟨h1.1 TimelineToolClass rfl, h1.2.1 (by decide), h2.2.2 (by decide)⟩

/-- C4 counterexample: a duplicate path does raise out of
`_register_tool`, but `_walk_package` catches every exception from a
module's processing, so startup (`discover`) completes normally: a
discovery run that hits the duplicate keeps the first registration,
skips the duplicate, and goes on to register later tools — the violation
is not fatal at startup, contrary to the claim. -/
theorem C4_duplicate_fatal_counterexample :
    Registry.registerTool (Registry.discover [ForceLoadToolClass]) ForceLoadToolClass =
      .error ("Duplicate tool path \x27" ++ ForceLoadToolClass.full_path ++ "\x27") ∧
    (Registry.discover
        [ForceLoadToolClass, ForceLoadToolClass, TimelineToolClass]).list_all_tools =
      ["RAD/Ingestor/Force Load", "RAD/ingestor/timeline"] := by
  exact ⟨rfl, by decide⟩

/-- C4 (amended): registering a tool whose path is already registered
raises (`ValueError`) out of `_register_tool` rather than overwriting,
and the walk step leaves the registry unchanged — the previously
registered tool stays in place; the walk swallows the exception with a
logged warning, so the violation is skipped, not fatal, at startup. -/
theorem C4_duplicate_raises_walk_skips (r : Registry) (tc : ToolClass)
    (hcat : attrTruthy tc.category = true) (hname : attrTruthy tc.name = true)
    (hdup : (dictLookup r.tools tc.full_path).isSome = true) :
    r.registerTool tc =
      .error ("Duplicate tool path \x27" ++ tc.full_path ++ "\x27") ∧
    Registry.walkStep r tc = r := by
  have hreg : r.registerTool tc =
      .error ("Duplicate tool path \x27" ++ tc.full_path ++ "\x27") := by
    unfold Registry.registerTool
    rw [if_neg (not_not_intro ⟨hcat, hname⟩), if_pos hdup]
  have hstep : Registry.walkStep r tc = r := by
    unfold Registry.walkStep
    rw [hreg]
  exact ⟨hreg, hstep⟩

/-- Witness for C4 (amended): re-registering the force-load tool against
a registry already holding it raises the duplicate error and leaves the
registry unchanged. -/
theorem C4_duplicate_raises_walk_skips_witness :
    (attrTruthy ForceLoadToolClass.category = true ∧
     attrTruthy ForceLoadToolClass.name = true ∧
     (dictLookup (Registry.discover [ForceLoadToolClass]).tools
        ForceLoadToolClass.full_path).isSome = true) ∧
    Registry.registerTool (Registry.discover [ForceLoadToolClass]) ForceLoadToolClass =
      .error ("Duplicate tool path \x27" ++ ForceLoadToolClass.full_path ++ "\x27") ∧
    Registry.walkStep (Registry.discover [ForceLoadToolClass]) ForceLoadToolClass =
      Registry.discover [ForceLoadToolClass] := by
  have h := C4_duplicate_raises_walk_skips (Registry.discover [ForceLoadToolClass])
    ForceLoadToolClass (by decide) (by decide) rfl
  exact ⟨⟨by decide, by decide, rfl⟩, h.1, h.2⟩

/-! ### Row-validation lemmas for C5 -/

/-- All three required keys are present in the row dict. -/
def rowAllKeys (row : ConfigRow) : Bool := requiredKeys.all row.hasKey

/-- All three required fields are populated (fully-populated row). -/
def rowFull (row : ConfigRow) : Bool := requiredKeys.all row.truthy

/-- No required field is populated (fully-empty row). -/
def rowEmpty (row : ConfigRow) : Bool := requiredKeys.all (fun k => ! row.truthy k)

/-- A row the validation loop passes over without raising. -/
def rowPasses (row : ConfigRow) : Prop :=
  rowAllKeys row = true ∧ (rowFull row = true ∨ rowEmpty row = true)

instance rowPassesDecidable (row : ConfigRow) : Decidable (rowPasses row) :=
  inferInstanceAs (Decidable (rowAllKeys row = true ∧
    (rowFull row = true ∨ rowEmpty row = true)))

theorem missing_keys_eq_nil {row : ConfigRow} (h : rowAllKeys row = true) :
    requiredKeys.filter (fun k => ! row.hasKey k) = [] := by
  rw [List.filter_eq_nil_iff]
  intro k hk
  have h2 := List.all_eq_true.mp h k hk
  simp [h2]

theorem validateRows_cons_pass (i : Nat) (row : ConfigRow) (rest : List ConfigRow)
    (h : rowPasses row) : validateRows i (row :: rest) = validateRows (i + 1) rest := by
  obtain ⟨hk, hfe⟩ := h
  have hcond : ¬(((requiredKeys.any fun k => ! row.truthy k) = true) ∧
      ¬((requiredKeys.all fun k => ! row.truthy k) = true)) := by
    rcases hfe with hf | he
    · rintro ⟨hsome, -⟩
      rcases List.any_eq_true.mp hsome with ⟨k, hkmem, hnott⟩
      have := List.all_eq_true.mp hf k hkmem
      rw [this] at hnott
      cases hnott
    · rintro ⟨-, hnall⟩
      exact hnall he
  rw [validateRows, if_neg (not_not_intro (missing_keys_eq_nil hk)), if_neg hcond]

theorem validateRows_cons_incomplete (i : Nat) (row : ConfigRow) (rest : List ConfigRow)
    (hk : rowAllKeys row = true) (hnf : rowFull row = false) (hne : rowEmpty row = false) :
    validateRows i (row :: rest) = .error ⟨.parameterValidation,
      "Row " ++ toString i ++ " has incomplete data",
      some ("Row " ++ toString (i + 1) ++ " must have all fields filled or be empty")⟩ := by
  have hcond : ((requiredKeys.any fun k => ! row.truthy k) = true) ∧
      ¬((requiredKeys.all fun k => ! row.truthy k) = true) := by
    constructor
    · rcases List.all_eq_false.mp hnf with ⟨k, hkmem, hkf⟩
      rw [List.any_eq_true]
      refine ⟨k, hkmem, ?_⟩
      simp only [Bool.not_eq_true'] at hkf ⊢
      simpa using hkf
    · intro hall
      rw [rowEmpty] at hne
      rw [hall] at hne
      cases hne
  rw [validateRows, if_neg (not_not_intro (missing_keys_eq_nil hk)), if_pos hcond]

theorem validateRows_cons_missing (i : Nat) (row : ConfigRow) (rest : List ConfigRow)
    (hk : rowAllKeys row = false) :
    validateRows i (row :: rest) = .error ⟨.parameterValidation,
      "Row " ++ toString i ++ " missing required keys: " ++
        pyStrListRepr (requiredKeys.filter (fun k => ! row.hasKey k)),
      some ("Row " ++ toString (i + 1) ++ " is missing required fields")⟩ := by
  have hne : requiredKeys.filter (fun k => ! row.hasKey k) ≠ [] := by
    rcases List.all_eq_false.mp hk with ⟨k, hkmem, hkf⟩
    intro hnil
    have : k ∈ requiredKeys.filter (fun k => ! row.hasKey k) := by
      rw [List.mem_filter]
      exact ⟨hkmem, by simp [hkf]⟩
    rw [hnil] at this
    cases this
  rw [validateRows, if_pos hne]

theorem validateRows_ok_iff (rows : List ConfigRow) (i : Nat) :
    validateRows i rows = .ok () ↔ ∀ row ∈ rows, rowPasses row := by
  induction rows generalizing i with
  | nil => simp [validateRows]
  | cons row rest ih =>
    by_cases hk : rowAllKeys row = true
    · by_cases hfe : rowFull row = true ∨ rowEmpty row = true
      · rw [validateRows_cons_pass i row rest ⟨hk, hfe⟩]
        constructor
        · intro h r hr
          rcases List.mem_cons.mp hr with he | hm
          · rw [he]; exact ⟨hk, hfe⟩
          · exact (ih (i + 1)).mp h r hm
        · intro h
          exact (ih (i + 1)).mpr (fun r hr => h r (List.mem_cons_of_mem _ hr))
      · push_neg at hfe
        rw [validateRows_cons_incomplete i row rest hk
          (by simpa using hfe.1) (by simpa using hfe.2)]
        constructor
        · intro h; cases h
        · intro h
          rcases (h row (List.mem_cons_self _ _)).2 with hf | he
          · exact absurd hf (by simpa using hfe.1)
          · exact absurd he (by simpa using hfe.2)
    · rw [validateRows_cons_missing i row rest (by simpa using hk)]
      constructor
      · intro h; cases h
      · intro h
        exact (hk (h row (List.mem_cons_self _ _)).1).elim

theorem validateRows_append_pass (i : Nat) (pre rest : List ConfigRow)
    (h : ∀ r ∈ pre, rowPasses r) :
    validateRows i (pre ++ rest) = validateRows (i + pre.length) rest := by
  induction pre generalizing i with
  | nil => simp
  | cons hd tl ih =>
    rw [List.cons_append,
      validateRows_cons_pass i hd (tl ++ rest) (h hd (List.mem_cons_self _ _)),
      ih (i + 1) (fun r hr => h r (List.mem_cons_of_mem _ hr))]
    congr 1
    simp
    omega

/-- For a row that passes validation, having any populated field is the
same as being fully populated. -/
theorem any_truthy_eq_rowFull (r : ConfigRow)
    (h : rowFull r = true ∨ rowEmpty r = true) :
    (requiredKeys.any fun k => r.truthy k) = rowFull r := by
  rcases h with hf | he
  · rw [hf, List.any_eq_true]
    exact ⟨"configName", by decide, List.all_eq_true.mp hf "configName" (by decide)⟩
  · have hs : ∀ k ∈ requiredKeys, r.truthy k = false := by
      intro k hk
      have := List.all_eq_true.mp he k hk
      simpa using this
    have hany : (requiredKeys.any fun k => r.truthy k) = false := by
      rw [List.any_eq_false]
      intro k hk
      simp [hs k hk]
    have hfull : rowFull r = false := by
      rw [rowFull, List.all_eq_false]
      exact ⟨"configName", by decide, by simp [hs "configName" (by decide)]⟩
    rw [hany, hfull]

/-- Mapping the synthesized records back to their source rows: the records
of `execute_force_load` are in 1-1 correspondence with the kept rows and
carry their `configName` values. -/
theorem execute_records_shape (rand : Nat → Nat) (table_name : String)
    (config_data : List ConfigRow) (dry_run : Bool) :
    (IngestorForceModel.execute_force_load rand table_name config_data dry_run).records.length
      = (config_data.filter (fun row => requiredKeys.any fun k => row.truthy k)).length ∧
    (IngestorForceModel.execute_force_load rand table_name config_data dry_run).records.map
        ForceLoadRecord.configName
      = (config_data.filter (fun row => requiredKeys.any fun k => row.truthy k)).map
          (fun r => (r.configName).getD "") := by
  constructor
  · simp [IngestorForceModel.execute_force_load]
  · simp only [IngestorForceModel.execute_force_load, List.map_map]
    have h1 : (ForceLoadRecord.configName ∘ fun ri : Nat × ConfigRow =>
        mkForceRecord rand ri.1 ri.2) =
        ((fun r : ConfigRow => (r.configName).getD "") ∘ Prod.snd) := rfl
    rw [h1, ← List.map_map, List.enum_map_snd]

/-- C5: under the `force_load` action of a valid table, an empty config
is rejected; the first partially-filled row (all keys present, some but
not all populated) fails `ParameterValidation` with a user message naming
its 1-based index; and a non-empty config whose rows are each fully
populated or fully empty succeeds, the fully-empty rows silently dropped:
output records exist exactly for the populated rows. -/
theorem C5_force_load_config_validation (rand : Nat → Nat) (ctx : ExecutionContext)
    (table_name : String) (htn : table_name ∈ forceLoadTableNames) :
    (∀ dr, ForceLoadTool.runFn rand ctx table_name (some "force_load") (some []) dr =
      .businessError ⟨.parameterValidation, "Configuration data cannot be empty",
        some "Please provide at least one configuration row"⟩) ∧
    (∀ dr pre row post, (∀ r ∈ pre, rowPasses r) →
      rowAllKeys row = true → rowFull row = false → rowEmpty row = false →
      ForceLoadTool.runFn rand ctx table_name (some "force_load")
          (some (pre ++ row :: post)) dr =
        .businessError ⟨.parameterValidation,
          "Row " ++ toString pre.length ++ " has incomplete data",
          some ("Row " ++ toString (pre.length + 1) ++
            " must have all fields filled or be empty")⟩) ∧
    (∀ dr cfg, cfg ≠ [] → (∀ r ∈ cfg, rowPasses r) →
      ForceLoadTool.runFn rand ctx table_name (some "force_load") (some cfg) (some dr) =
        .ok (.forceResult (IngestorForceModel.execute_force_load rand table_name cfg dr)) ∧
      (IngestorForceModel.execute_force_load rand table_name cfg dr).records.length =
        (cfg.filter rowFull).length ∧
      (IngestorForceModel.execute_force_load rand table_name cfg dr).records.map
          ForceLoadRecord.configName =
        (cfg.filter rowFull).map (fun r => (r.configName).getD "")) := by
  refine ⟨?_, ?_, ?_⟩
  · intro dr
    simp [ForceLoadTool.runFn, htn, IngestorForceModel.validate_config]
  · intro dr pre row post hpre hk hnf hne
    have hval : IngestorForceModel.validate_config (pre ++ row :: post) =
        .error ⟨.parameterValidation,
          "Row " ++ toString pre.length ++ " has incomplete data",
          some ("Row " ++ toString (pre.length + 1) ++
            " must have all fields filled or be empty")⟩ := by
      unfold IngestorForceModel.validate_config
      rw [if_neg (by simp), validateRows_append_pass 0 pre _ hpre,
        validateRows_cons_incomplete _ row post hk hnf hne]
      simp
    simp [ForceLoadTool.runFn, htn, hval]
  · intro dr cfg hcne hall
    have hval : IngestorForceModel.validate_config cfg = .ok () := by
      unfold IngestorForceModel.validate_config
      rw [if_neg (by simp [hcne])]
      exact (validateRows_ok_iff cfg 0).mpr hall
    have hfilter : cfg.filter (fun row => requiredKeys.any fun k => row.truthy k) =
        cfg.filter rowFull :=
      List.filter_congr (fun r hr => any_truthy_eq_rowFull r (hall r hr).2)
    have hshape := execute_records_shape rand table_name cfg dr
    refine ⟨by simp [ForceLoadTool.runFn, htn, hval], ?_, ?_⟩
    · rw [hshape.1, hfilter]
    · rw [hshape.2, hfilter]

/-- A fixed concrete execution context used by witnesses (tools ignore
the context except for logging, which is dropped). -/
def wCtx : ExecutionContext :=
  { request_id := "rid", user := "alice", timestamp := forceBaseDate
    tool_path := "RAD/Ingestor/Force Load"
    params := ToolParams.forceLoad "Inflation Env" none none none }

/-- Witness for C5 at `"Inflation Env"`: the empty config errors; a row
with only `configName` set fails naming row 1; a pair of one fully-empty
row and one fully-populated row produces exactly one record, for the
populated one. -/
theorem C5_force_load_config_validation_witness :
    (ForceLoadTool.runFn (fun n => n) wCtx "Inflation Env" (some "force_load")
        (some []) none =
      .businessError ⟨.parameterValidation, "Configuration data cannot be empty",
        some "Please provide at least one configuration row"⟩) ∧
    (ForceLoadTool.runFn (fun n => n) wCtx "Inflation Env" (some "force_load")
        (some [⟨some "OnlyName", some "", some ""⟩]) none =
      .businessError ⟨.parameterValidation, "Row 0 has incomplete data",
        some "Row 1 must have all fields filled or be empty"⟩) ∧
    (ForceLoadTool.runFn (fun n => n) wCtx "Inflation Env" (some "force_load")
        (some [⟨some "", some "", some ""⟩, ⟨some "A", some "k", some "g"⟩])
        (some true) =
      .ok (.forceResult (IngestorForceModel.execute_force_load (fun n => n)
        "Inflation Env" [⟨some "", some "", some ""⟩, ⟨some "A", some "k", some "g"⟩]
        true)) ∧
     (IngestorForceModel.execute_force_load (fun n => n) "Inflation Env"
        [⟨some "", some "", some ""⟩, ⟨some "A", some "k", some "g"⟩] true).records.map
          ForceLoadRecord.configName = ["A"]) := by
  have h := C5_force_load_config_validation (fun n => n) wCtx "Inflation Env" (by decide)
  refine ⟨h.1 none, ?_, ?_, ?_⟩
  · have h2 := h.2.1 none [] ⟨some "OnlyName", some "", some ""⟩ []
      (by intro r hr; cases hr) (by decide) (by decide) (by decide)
    simpa using h2
  · exact (h.2.2 true [⟨some "", some "", some ""⟩, ⟨some "A", some "k", some "g"⟩]
      (by decide) (by decide)).1
  · have h3 := (h.2.2 true [⟨some "", some "", some ""⟩, ⟨some "A", some "k", some "g"⟩]
      (by decide) (by decide)).2.2
    rw [h3]
    decide

/-- `execute_force_load` with the same randomness source: every result
component except the message is independent of `dry_run`. -/
theorem execute_force_load_dry_invariant (rand : Nat → Nat) (table_name : String)
    (config_data : List ConfigRow) :
    (IngestorForceModel.execute_force_load rand table_name config_data true).success =
      (IngestorForceModel.execute_force_load rand table_name config_data false).success ∧
    (IngestorForceModel.execute_force_load rand table_name config_data true).rows_processed =
      (IngestorForceModel.execute_force_load rand table_name config_data false).rows_processed ∧
    (IngestorForceModel.execute_force_load rand table_name config_data true).table_name =
      (IngestorForceModel.execute_force_load rand table_name config_data false).table_name ∧
    (IngestorForceModel.execute_force_load rand table_name config_data true).records =
      (IngestorForceModel.execute_force_load rand table_name config_data false).records :=
  ⟨rfl, rfl, rfl, rfl⟩

/-- C6: for any table and config, a `force_load` dry run and real run
(holding the randomness source fixed) validate identically — they fail
with the same business error in exactly the same cases — and on success
their results agree on `success`, `rows_processed`, `table_name` and the
synthesized records, differing only in the result message. -/
theorem C6_dry_run_message_only (rand : Nat → Nat) (ctx : ExecutionContext)
    (table_name : String) (config : Option (List ConfigRow)) :
    (∀ e, ForceLoadTool.runFn rand ctx table_name (some "force_load") config (some true) =
        .businessError e ↔
      ForceLoadTool.runFn rand ctx table_name (some "force_load") config (some false) =
        .businessError e) ∧
    (∀ a b,
      ForceLoadTool.runFn rand ctx table_name (some "force_load") config (some true) =
        .ok (.forceResult a) →
      ForceLoadTool.runFn rand ctx table_name (some "force_load") config (some false) =
        .ok (.forceResult b) →
      a.success = b.success ∧ a.rows_processed = b.rows_processed ∧
      a.table_name = b.table_name ∧ a.records = b.records) := by
  by_cases htn : table_name ∈ forceLoadTableNames
  · rcases config with _ | cfg
    · constructor
      · intro e
        simp [ForceLoadTool.runFn, htn]
      · intro a b ha hb
        simp [ForceLoadTool.runFn, htn] at ha
    · rcases hval : IngestorForceModel.validate_config cfg with e0 | u
      · constructor
        · intro e
          simp [ForceLoadTool.runFn, htn, hval]
        · intro a b ha hb
          simp [ForceLoadTool.runFn, htn, hval] at ha
      · constructor
        · intro e
          simp [ForceLoadTool.runFn, htn, hval]
        · intro a b ha hb
          simp [ForceLoadTool.runFn, htn, hval] at ha hb
          rw [← ha, ← hb]
          exact execute_force_load_dry_invariant rand table_name cfg
  · constructor
    · intro e
      simp [ForceLoadTool.runFn, htn]
    · intro a b ha hb
      simp [ForceLoadTool.runFn, htn] at ha

/-- Witness for C6: a concrete succeeding dry-run/real-run pair agrees on
everything but the message. -/
theorem C6_dry_run_message_only_witness :
    ForceLoadTool.runFn (fun n => n) wCtx "Inflation Env" (some "force_load")
        (some [⟨some "A", some "k", some "g"⟩]) (some true) =
      .ok (.forceResult (IngestorForceModel.execute_force_load (fun n => n)
        "Inflation Env" [⟨some "A", some "k", some "g"⟩] true)) ∧
    ForceLoadTool.runFn (fun n => n) wCtx "Inflation Env" (some "force_load")
        (some [⟨some "A", some "k", some "g"⟩]) (some false) =
      .ok (.forceResult (IngestorForceModel.execute_force_load (fun n => n)
        "Inflation Env" [⟨some "A", some "k", some "g"⟩] false)) ∧
    (IngestorForceModel.execute_force_load (fun n => n) "Inflation Env"
        [⟨some "A", some "k", some "g"⟩] true).records =
      (IngestorForceModel.execute_force_load (fun n => n) "Inflation Env"
        [⟨some "A", some "k", some "g"⟩] false).records := by
  have h := (C6_dry_run_message_only (fun n => n) wCtx "Inflation Env"
    (some [⟨some "A", some "k", some "g"⟩])).2
    (IngestorForceModel.execute_force_load (fun n => n) "Inflation Env"
      [⟨some "A", some "k", some "g"⟩] true)
    (IngestorForceModel.execute_force_load (fun n => n) "Inflation Env"
      [⟨some "A", some "k", some "g"⟩] false) rfl rfl
  exact ⟨rfl, rfl, h.2.2.2⟩

/-- C7: executing the timeline tool through the executor and the real
registry with desk `Options` and date `2025-01-15` succeeds and returns
the configured mock window of exactly 10 records, `overwrite` alternating
false/true starting false. -/
theorem C7_timeline_query_mock_window (rand : Nat → Nat) (user request_id : String)
    (timestamp : PyDateTime) :
    (ToolExecutor.execute realRegistry rand user "RAD/ingestor/timeline"
        (ToolParams.timeline "Options" "2025-01-15") request_id timestamp).success = true ∧
    ∃ td, (ToolExecutor.execute realRegistry rand user "RAD/ingestor/timeline"
        (ToolParams.timeline "Options" "2025-01-15") request_id timestamp).data =
        some (.timeline td) ∧
      td.records.length = 10 ∧
      td.records.map TimelineRecord.overwrite =
        [false, true, false, true, false, true, false, true, false, true] := by
  refine ⟨rfl, IngestorTimelineModel.process_timeline_data
    (IngestorTimelineModel.get_timeline_data "Options" ⟨2025, 1, 15, 0, 0, 0, 0⟩),
    rfl, by decide, by decide⟩

/-- C9: the force-load tool accepts the undocumented action `save`, which
is the default when `action` is omitted; `save` behaves exactly like
`force_load` on a supplied config but always executes with
`dry_run = False`, ignoring the caller's `dry_run` — in particular a call
supplying only `table_name` and `config` performs a real run despite the
declared `dry_run=True` default. -/
theorem C9_save_action_default (rand : Nat → Nat) (ctx : ExecutionContext)
    (table_name : String) (config : Option (List ConfigRow))
    (cfg : List ConfigRow) (drA drB : Option Bool) :
    (ForceLoadTool.runFn rand ctx table_name none config drA =
      ForceLoadTool.runFn rand ctx table_name (some "save") config drA) ∧
    (ForceLoadTool.runFn rand ctx table_name (some "save") config drA =
      ForceLoadTool.runFn rand ctx table_name (some "save") config drB) ∧
    (ForceLoadTool.runFn rand ctx table_name (some "save") (some cfg) drA =
      ForceLoadTool.runFn rand ctx table_name (some "force_load") (some cfg) (some false)) ∧
    (ForceLoadTool.runFn rand ctx table_name none (some cfg) none =
      ForceLoadTool.runFn rand ctx table_name (some "force_load") (some cfg) (some false)) := by
  refine ⟨rfl, ?_, ?_, ?_⟩ <;>
    by_cases htn : table_name ∈ forceLoadTableNames <;>
      simp [ForceLoadTool.runFn, htn]

/-- C10: the two tools register under differently-cased categories: the
flat path table holds exactly `RAD/Ingestor/Force Load` and
`RAD/ingestor/timeline`; the navigation tree has the two distinct
children `Ingestor` and `ingestor` under `RAD`, holding the respective
tool names; and the force-load tool dispatches only at its exact
mixed-case path — every resolvable path is one of the two. -/
theorem C10_case_sensitive_category_split :
    ForceLoadToolClass.full_path = "RAD/Ingestor/Force Load" ∧
    realRegistry.list_all_tools = ["RAD/Ingestor/Force Load", "RAD/ingestor/timeline"] ∧
    (realRegistry.get_structure.lookupChild "RAD").map NavStructure.childKeys =
      some ["Ingestor", "ingestor"] ∧
    ((realRegistry.get_structure.lookupChild "RAD").bind
      (fun st => st.lookupChild "Ingestor")).map NavStructure.tools =
        some ["Force Load"] ∧
    ((realRegistry.get_structure.lookupChild "RAD").bind
      (fun st => st.lookupChild "ingestor")).map NavStructure.tools =
        some ["timeline"] ∧
    realRegistry.get_tool "RAD/Ingestor/Force Load" = .ok ForceLoadToolClass ∧
    (∀ p, (∃ tool, realRegistry.get_tool p = .ok tool) ↔
      (p = "RAD/Ingestor/Force Load" ∨ p = "RAD/ingestor/timeline")) := by
  refine ⟨rfl, by decide, ?_, ?_, ?_, rfl, ?_⟩
  · rfl
  · rfl
  · rfl
  · intro p
    rw [get_tool_ok_iff_mem realRegistry p,
      (by decide : realRegistry.list_all_tools =
        ["RAD/Ingestor/Force Load", "RAD/ingestor/timeline"])]
    simp

end NLRAD
